import Mathlib

/-!
# Shallow embedding of the e-commerce frontend's cart/session model

Definitions are translated from the TypeScript sources:
- `ApiService` (Remote Store Client) from `services/api.service.ts`
- `AuthService` (Session State) from `services/auth.service.ts`
- `CartService` (Cart State Cache) from `services/cart.service.ts`
- view components (`CartComponent`, `ProductListComponent`, `LoginComponent`,
  `CheckoutComponent`, `AdminOrdersComponent`) from their component files.

Asynchronous RxJS subscriptions are embedded synchronously: each handler is a
function of the (already-arrived) HTTP outcome, and side effects (HTTP
requests, cache writes, console logs, snack-bar notifications, navigations)
are recorded in an explicit event trace in program order.
-/

/-- `User` from `auth.service.ts`. `role` is the string union `admin | user`. -/
structure User where
  id : String
  username : String
  role : String
  token : Option String
deriving Repr, DecidableEq

/-- `CartItem` from `api.service.ts`. JS numbers carrying ids, quantities and
money amounts are modelled as `Int`. -/
structure CartItem where
  cart_id : Int
  product_id : Int
  product_name : String
  product_price : Int
  product_image : String
  quantity : Int
  subtotal : Int
  available_stock : Int
deriving Repr, DecidableEq

/-- `Cart` from `api.service.ts`. -/
structure Cart where
  user_id : String
  items : List CartItem
  total_amount : Int
  item_count : Int
deriving Repr, DecidableEq

/-- `Product` from `api.service.ts`. -/
structure Product where
  id : Int
  name : String
  description : String
  price : Int
  stock : Int
  category : String
  image_url : String
deriving Repr, DecidableEq

/-- `Order` from `api.service.ts` (items elided to their count where unused). -/
structure Order where
  id : Int
  user_id : String
  total_amount : Int
  status : String
  created_at : String
  updated_at : String
deriving Repr, DecidableEq

/-- HTTP method of a request issued through Angular's `HttpClient`. -/
inductive Method where
  | get
  | post
  | put
  | delete
deriving Repr, DecidableEq

/-- The header object built by `ApiService.getHeaders`. -/
structure HeaderSet where
  contentType : String
  xUserId : String
  xUserRole : String
deriving Repr, DecidableEq

/-- Request bodies that `ApiService` sends (JSON payloads, by shape). -/
inductive Body where
  | empty
  | loginBody (username password : String)
  | registerBody (username password role : String)
  | productBody
  | cartAddBody (product_id quantity : Int)
  | cartUpdateBody (product_id quantity : Int)
  | cartRemoveBody (product_id : Int)
  | statusBody (status : String)
deriving Repr, DecidableEq

/-- An HTTP request as issued by `ApiService`: method, URL, the headers
object when one is passed (`none` when the call passes no `headers` option),
and the body when one is sent. -/
structure Request where
  method : Method
  url : String
  headers : Option HeaderSet
  body : Option Body
deriving Repr, DecidableEq

/-- `private baseUrl = 'http://localhost:5000/api'` in `api.service.ts`. -/
def baseUrl : String := "http://localhost:5000/api"

/-- `ApiService.getHeaders`: reads the current user from `AuthService` and
falls back, per JS `||` truthiness, to `'user1'` / `'user'` when the user is
absent or the field is empty. -/
def ApiService.getHeaders (user : Option User) : HeaderSet :=
  { contentType := "application/json"
    xUserId :=
      match user with
      | none => "user1"
      | some u => if u.id = "" then "user1" else u.id
    xUserRole :=
      match user with
      | none => "user"
      | some u => if u.role = "" then "user" else u.role }

/-- One constructor per `ApiService` operation, carrying its parameters. -/
inductive ApiOp where
  | login (username password : String)
  | register (username password role : String)
  | getUsers
  | getProducts (category search : Option String)
  | getProduct (id : Int)
  | createProduct
  | updateProduct (id : Int)
  | deleteProduct (id : Int)
  | getCart
  | addToCart (productId quantity : Int)
  | updateCartItem (productId quantity : Int)
  | removeFromCart (productId : Int)
  | clearCart
  | checkout
  | getOrderHistory
  | getOrder (id : Int)
  | getAllOrders (status : Option String)
  | updateOrderStatus (orderId : Int) (status : String)
  | getDashboardData
deriving Repr, DecidableEq

/-- Query-parameter string built by `ApiService.getProducts`: each of
`category` and `search` contributes a `key=value&` segment when truthy. -/
def productParams (category search : Option String) : String :=
  (match category with
   | some c => if c = "" then "" else "category=" ++ c ++ "&"
   | none => "") ++
  (match search with
   | some s => if s = "" then "" else "search=" ++ s ++ "&"
   | none => "")

/-- Query-parameter string built by `ApiService.getAllOrders`. -/
def orderParams (status : Option String) : String :=
  match status with
  | some s => if s = "" then "" else "?status=" ++ s
  | none => ""

/-- The request each `ApiService` operation issues, translated method by
method from `api.service.ts`. The three authentication operations (`login`,
`register`, `getUsers`) pass no headers object; every other operation passes
`getHeaders()`. -/
def ApiService.request (user : Option User) : ApiOp → Request
  | .login username password =>
      ⟨.post, baseUrl ++ "/auth/login", none, some (.loginBody username password)⟩
  | .register username password role =>
      ⟨.post, baseUrl ++ "/auth/register", none, some (.registerBody username password role)⟩
  | .getUsers =>
      ⟨.get, baseUrl ++ "/auth/users", none, none⟩
  | .getProducts category search =>
      ⟨.get, baseUrl ++ "/products?" ++ productParams category search,
        some (ApiService.getHeaders user), none⟩
  | .getProduct id =>
      ⟨.get, baseUrl ++ "/products/" ++ toString id, some (ApiService.getHeaders user), none⟩
  | .createProduct =>
      ⟨.post, baseUrl ++ "/products", some (ApiService.getHeaders user), some .productBody⟩
  | .updateProduct id =>
      ⟨.put, baseUrl ++ "/products/" ++ toString id, some (ApiService.getHeaders user),
        some .productBody⟩
  | .deleteProduct id =>
      ⟨.delete, baseUrl ++ "/products/" ++ toString id, some (ApiService.getHeaders user), none⟩
  | .getCart =>
      ⟨.get, baseUrl ++ "/cart", some (ApiService.getHeaders user), none⟩
  | .addToCart productId quantity =>
      ⟨.post, baseUrl ++ "/cart/add", some (ApiService.getHeaders user),
        some (.cartAddBody productId quantity)⟩
  | .updateCartItem productId quantity =>
      ⟨.put, baseUrl ++ "/cart/update", some (ApiService.getHeaders user),
        some (.cartUpdateBody productId quantity)⟩
  | .removeFromCart productId =>
      ⟨.delete, baseUrl ++ "/cart/remove", some (ApiService.getHeaders user),
        some (.cartRemoveBody productId)⟩
  | .clearCart =>
      ⟨.delete, baseUrl ++ "/cart/clear", some (ApiService.getHeaders user), none⟩
  | .checkout =>
      ⟨.post, baseUrl ++ "/orders/checkout", some (ApiService.getHeaders user), some .empty⟩
  | .getOrderHistory =>
      ⟨.get, baseUrl ++ "/orders/history", some (ApiService.getHeaders user), none⟩
  | .getOrder id =>
      ⟨.get, baseUrl ++ "/orders/" ++ toString id, some (ApiService.getHeaders user), none⟩
  | .getAllOrders status =>
      ⟨.get, baseUrl ++ "/admin/orders" ++ orderParams status,
        some (ApiService.getHeaders user), none⟩
  | .updateOrderStatus orderId status =>
      ⟨.put, baseUrl ++ "/admin/orders/" ++ toString orderId ++ "/status",
        some (ApiService.getHeaders user), some (.statusBody status)⟩
  | .getDashboardData =>
      ⟨.get, baseUrl ++ "/admin/dashboard", some (ApiService.getHeaders user), none⟩

/-- Observable side effects of the embedded code, in program order. -/
inductive Event where
  | request (r : Request)
  | cacheSet (c : Cart)
  | observerNext
  | observerComplete
  | observerError
  | logError (msg : String)
  | logInfo (msg : String)
  | notify (msg : String)
  | navigate (route : String)
  | storeUser (u : User)
  | removeStoredUser
deriving Repr, DecidableEq

/-- Outcome of an HTTP exchange: Angular's error callback receives the
response error object; the body's `error` field, when the server sent one,
is in `bodyError`. -/
structure HttpError where
  status : Int
  bodyError : Option String
deriving Repr, DecidableEq

/-- The initial `cartSubject` value in `cart.service.ts`. -/
def initialCart : Cart := { user_id := "", items := [], total_amount := 0, item_count := 0 }

/-- `CartService.getCurrentCart`: the current `cartSubject.value`. -/
def CartService.getCurrentCart (st : Cart) : Cart := st

/-- `CartService.loadCart`: issues `getCart`; on success pushes the response
into `cartSubject`, on error only logs. Returns the new cache value and the
trace of effects. -/
def CartService.loadCart (user : Option User) (reload : Except HttpError Cart)
    (st : Cart) : Cart × List Event :=
  match reload with
  | .ok c => (c, [.request (ApiService.request user .getCart), .cacheSet c])
  | .error _ => (st, [.request (ApiService.request user .getCart),
                      .logError "Error loading cart:"])

/-- `CartService.addToCart`: fires the mutation; on success refreshes the
cart via `loadCart` and then resolves the returned observable
(`next`, `complete`); on error propagates `error` without reloading. -/
def CartService.addToCart (user : Option User) (productId quantity : Int)
    (mutation : Except HttpError Unit) (reload : Except HttpError Cart)
    (st : Cart) : Cart × List Event :=
  match mutation with
  | .ok _ =>
      let res := CartService.loadCart user reload st
      (res.1, .request (ApiService.request user (.addToCart productId quantity)) ::
        res.2 ++ [.observerNext, .observerComplete])
  | .error _ =>
      (st, [.request (ApiService.request user (.addToCart productId quantity)),
            .observerError])

/-- `CartService.updateCartItem`: same shape as `addToCart` over
`PUT /cart/update`. -/
def CartService.updateCartItem (user : Option User) (productId quantity : Int)
    (mutation : Except HttpError Unit) (reload : Except HttpError Cart)
    (st : Cart) : Cart × List Event :=
  match mutation with
  | .ok _ =>
      let res := CartService.loadCart user reload st
      (res.1, .request (ApiService.request user (.updateCartItem productId quantity)) ::
        res.2 ++ [.observerNext, .observerComplete])
  | .error _ =>
      (st, [.request (ApiService.request user (.updateCartItem productId quantity)),
            .observerError])

/-- `CartService.removeFromCart`: same shape over `DELETE /cart/remove`. -/
def CartService.removeFromCart (user : Option User) (productId : Int)
    (mutation : Except HttpError Unit) (reload : Except HttpError Cart)
    (st : Cart) : Cart × List Event :=
  match mutation with
  | .ok _ =>
      let res := CartService.loadCart user reload st
      (res.1, .request (ApiService.request user (.removeFromCart productId)) ::
        res.2 ++ [.observerNext, .observerComplete])
  | .error _ =>
      (st, [.request (ApiService.request user (.removeFromCart productId)),
            .observerError])

/-- `CartService.clearCart`: same shape over `DELETE /cart/clear`. -/
def CartService.clearCart (user : Option User)
    (mutation : Except HttpError Unit) (reload : Except HttpError Cart)
    (st : Cart) : Cart × List Event :=
  match mutation with
  | .ok _ =>
      let res := CartService.loadCart user reload st
      (res.1, .request (ApiService.request user .clearCart) ::
        res.2 ++ [.observerNext, .observerComplete])
  | .error _ =>
      (st, [.request (ApiService.request user .clearCart), .observerError])

/-- The four cart mutation operations of the Cart State Cache. -/
inductive MutOp where
  | add (productId quantity : Int)
  | update (productId quantity : Int)
  | remove (productId : Int)
  | clear
deriving Repr, DecidableEq

/-- Dispatch a mutation operation to the corresponding `CartService` method. -/
def CartService.mutate (user : Option User) (op : MutOp)
    (mutation : Except HttpError Unit) (reload : Except HttpError Cart)
    (st : Cart) : Cart × List Event :=
  match op with
  | .add p q => CartService.addToCart user p q mutation reload st
  | .update p q => CartService.updateCartItem user p q mutation reload st
  | .remove p => CartService.removeFromCart user p mutation reload st
  | .clear => CartService.clearCart user mutation reload st

/-- Session State held by `AuthService`: the `currentUserSubject` value and
the `localStorage` record under the `currentUser` key (as a parsed value). -/
structure SessionState where
  currentUser : Option User
  storedUser : Option User
deriving Repr, DecidableEq

/-- `AuthService.getCurrentUser`. -/
def AuthService.getCurrentUser (st : SessionState) : Option User := st.currentUser

/-- `AuthService.isLoggedIn`: `currentUserSubject.value !== null`. -/
def AuthService.isLoggedIn (st : SessionState) : Bool := st.currentUser.isSome

/-- `AuthService.isAdmin`: optional chaining `user?.role === 'admin'`. -/
def AuthService.isAdmin (st : SessionState) : Bool :=
  match st.currentUser with
  | some u => u.role = "admin"
  | none => false

/-- `AuthService.login`: persists the user to `localStorage`, pushes it into
the subject, and navigates by role (`/admin` for admins, `/user` otherwise). -/
def AuthService.login (_st : SessionState) (user : User) : SessionState × List Event :=
  ({ currentUser := some user, storedUser := some user },
   [.storeUser user,
    if user.role = "admin" then .navigate "/admin" else .navigate "/user"])

/-- `AuthService.logout`: clears `localStorage` and the subject, navigates to
the login surface. -/
def AuthService.logout (_st : SessionState) : SessionState × List Event :=
  ({ currentUser := none, storedUser := none }, [.removeStoredUser, .navigate "/login"])

/-- `LoginComponent.onSubmit`: when the form is valid, issues the login
request; on success hands `response.user` to `AuthService.login` and shows a
success notification; on error only shows the failure notification. -/
def LoginComponent.onSubmit (st : SessionState) (formValid : Bool)
    (username password : String) (resp : Except HttpError User) :
    SessionState × List Event :=
  if formValid then
    let req : Event := .request (ApiService.request st.currentUser (.login username password))
    match resp with
    | .ok u =>
        let res := AuthService.login st u
        (res.1, req :: res.2 ++ [.notify "Login successful!"])
    | .error _ =>
        (st, [req, .notify "Login failed. Please check your credentials."])
  else (st, [])

/-- `ProductListComponent.addToCart`: guards on `product.stock <= 0` before
dispatching `cartService.addToCart(product.id, 1)`. -/
def ProductListComponent.addToCart (user : Option User) (product : Product)
    (mutation : Except HttpError Unit) (reload : Except HttpError Cart)
    (st : Cart) : Cart × List Event :=
  if product.stock ≤ 0 then
    (st, [.notify "Product is out of stock"])
  else
    let res := CartService.addToCart user product.id 1 mutation reload st
    match mutation with
    | .ok _ => (res.1, res.2 ++ [.notify (product.name ++ " added to cart")])
    | .error _ =>
        (res.1, res.2 ++ [.logError "Error adding to cart:",
                          .notify "Error adding product to cart"])

/-- `CartComponent.removeItem`: dispatches `cartService.removeFromCart` and
notifies on the outcome. -/
def CartComponent.removeItem (user : Option User) (item : CartItem)
    (mutation : Except HttpError Unit) (reload : Except HttpError Cart)
    (st : Cart) : Cart × List Event :=
  let res := CartService.removeFromCart user item.product_id mutation reload st
  match mutation with
  | .ok _ => (res.1, res.2 ++ [.notify (item.product_name ++ " removed from cart")])
  | .error _ =>
      (res.1, res.2 ++ [.logError "Error removing item:", .notify "Error removing item"])

/-- `CartComponent.updateQuantity`: a quantity below 1 delegates to
`removeItem`; a quantity above `available_stock` only notifies; otherwise
dispatches `cartService.updateCartItem` and notifies on the outcome. -/
def CartComponent.updateQuantity (user : Option User) (item : CartItem)
    (newQuantity : Int) (mutation : Except HttpError Unit)
    (reload : Except HttpError Cart) (st : Cart) : Cart × List Event :=
  if newQuantity < 1 then
    CartComponent.removeItem user item mutation reload st
  else if newQuantity > item.available_stock then
    (st, [.notify ("Only " ++ toString item.available_stock ++ " items available")])
  else
    let res := CartService.updateCartItem user item.product_id newQuantity mutation reload st
    match mutation with
    | .ok _ => (res.1, res.2 ++ [.notify "Cart updated"])
    | .error _ =>
        (res.1, res.2 ++ [.logError "Error updating cart:", .notify "Error updating cart"])

/-- `CartComponent.clearCart`: behind a `confirm` dialog, dispatches
`cartService.clearCart` and notifies on the outcome. -/
def CartComponent.clearCart (user : Option User) (confirmed : Bool)
    (mutation : Except HttpError Unit) (reload : Except HttpError Cart)
    (st : Cart) : Cart × List Event :=
  if confirmed then
    let res := CartService.clearCart user mutation reload st
    match mutation with
    | .ok _ => (res.1, res.2 ++ [.notify "Cart cleared"])
    | .error _ =>
        (res.1, res.2 ++ [.logError "Error clearing cart:", .notify "Error clearing cart"])
  else (st, [])

/-- The message shown by `CheckoutComponent.onSubmit` on a failed checkout:
`error.error.error` when the response body carries a truthy message, else the
generic failure string. -/
def CheckoutComponent.errorMessage (e : HttpError) : String :=
  match e.bodyError with
  | some m => if m = "" then "Failed to place order. Please try again." else m
  | none => "Failed to place order. Please try again."

/-- `CheckoutComponent.onSubmit`: when the form is valid and the cart is
nonempty, issues the checkout request; success notifies and navigates to the
orders surface; failure logs and notifies with `errorMessage`. -/
def CheckoutComponent.onSubmit (user : Option User) (formValid : Bool)
    (cart : Cart) (resp : Except HttpError Unit) : List Event :=
  if formValid && decide (0 < cart.items.length) then
    .request (ApiService.request user .checkout) ::
    (match resp with
     | .ok _ => [.notify "Order placed successfully!", .navigate "/user/orders"]
     | .error e => [.logError "Checkout error:", .notify (CheckoutComponent.errorMessage e)])
  else []

/-- `AdminOrdersComponent.updateOrderStatus`, exactly as written in the
source: a `TODO` stub that logs and shows an unconditional success
notification, issuing no HTTP request. -/
def AdminOrdersComponent.updateOrderStatus (order : Order) (newStatus : String) :
    List Event :=
  [.logInfo ("Update order " ++ toString order.id ++ " status to " ++ newStatus),
   .notify ("Order #" ++ toString order.id ++ " status updated to " ++ newStatus)]

/-- Sum of the quantities of a list of cart items. -/
def sumQuantities (items : List CartItem) : Int := (items.map (·.quantity)).sum

/-- Sum of the subtotals of a list of cart items. -/
def sumSubtotals (items : List CartItem) : Int := (items.map (·.subtotal)).sum

/-- The Cart invariant of the data model: `item_count` is the sum of the
quantities and `total_amount` is the sum of the subtotals. -/
def cartInvariant (c : Cart) : Prop :=
  c.item_count = sumQuantities c.items ∧ c.total_amount = sumSubtotals c.items

instance (c : Cart) : Decidable (cartInvariant c) := by
  unfold cartInvariant
  infer_instance

/-- Modelled from the spec: the backend cart store itself is not part of this
repository (the shell scripts launch external services). Per the spec's data
model, the Cart is recomputed server-side on every mutation with
`total_amount` and `item_count` derived as the sums of subtotals and
quantities. Removing a product deletes its line and rederives the totals. -/
def serverRemoveFromCart (c : Cart) (productId : Int) : Cart :=
  let items := c.items.filter (fun i => i.product_id ≠ productId)
  { user_id := c.user_id, items := items,
    total_amount := sumSubtotals items, item_count := sumQuantities items }

/-- Modelled from the spec: updating a line's quantity sets the quantity,
rederives the line subtotal from the snapshot price, and rederives the
totals. -/
def serverUpdateCartItem (c : Cart) (productId quantity : Int) : Cart :=
  let items := c.items.map (fun i =>
    if i.product_id = productId then
      { i with quantity := quantity, subtotal := i.product_price * quantity }
    else i)
  { user_id := c.user_id, items := items,
    total_amount := sumSubtotals items, item_count := sumQuantities items }

/-- The sequence of snapshots observed through `cartSubject` when a sequence
of reload responses is applied from a starting snapshot. -/
def cartSnapshots (user : Option User) (st : Cart) :
    List (Except HttpError Cart) → List Cart
  | [] => [st]
  | r :: rs => st :: cartSnapshots user (CartService.loadCart user r st).1 rs

/-- Recognizes the full-cart reload request (`GET /cart`). -/
def isCartReloadRequest (user : Option User) (e : Event) : Bool :=
  match e with
  | .request r => r == ApiService.request user .getCart
  | _ => false

/-- Recognizes any HTTP request event. -/
def isRequest (e : Event) : Bool :=
  match e with
  | .request _ => true
  | _ => false

/-- Recognizes a `cartSubject.next` emission. -/
def isCacheSet (e : Event) : Bool :=
  match e with
  | .cacheSet _ => true
  | _ => false

/-- Recognizes a user-visible notification. -/
def isNotify (e : Event) : Bool :=
  match e with
  | .notify _ => true
  | _ => false

/-- Recognizes a navigation. -/
def isNavigate (e : Event) : Bool :=
  match e with
  | .navigate _ => true
  | _ => false

/-- Recognizes a `localStorage` identity write. -/
def isStoreUser (e : Event) : Bool :=
  match e with
  | .storeUser _ => true
  | _ => false

/-- Recognizes a resolution of the operation's observers. -/
def isObserverResolve (e : Event) : Bool :=
  match e with
  | .observerNext => true
  | .observerComplete => true
  | _ => false

/-- The spec scenario's productA line: qty 2 @ $10, subtotal 20. -/
def itemA : CartItem :=
  { cart_id := 1, product_id := 1, product_name := "productA", product_price := 10,
    product_image := "", quantity := 2, subtotal := 20, available_stock := 10 }

/-- The spec scenario's productB line: qty 1 @ $5, subtotal 5. -/
def itemB : CartItem :=
  { cart_id := 1, product_id := 2, product_name := "productB", product_price := 5,
    product_image := "", quantity := 1, subtotal := 5, available_stock := 10 }

/-- The spec scenario's cart: total 25, item count 3. -/
def specCart : Cart :=
  { user_id := "user1", items := [itemA, itemB], total_amount := 25, item_count := 3 }

/-- A concrete order for evaluation. -/
def order1 : Order :=
  { id := 1, user_id := "user1", total_amount := 25, status := "pending",
    created_at := "2024-01-01", updated_at := "2024-01-01" }

/-- A concrete failed response whose body carries a server-provided message. -/
def stockErr : HttpError := { status := 400, bodyError := some "Insufficient stock" }

/-- Every snapshot in a reload sequence keeps the Cart invariant, provided
the starting snapshot has it and every successful response has it. -/
theorem cartSnapshots_inv (user : Option User)
    (rs : List (Except HttpError Cart)) (st : Cart) (hst : cartInvariant st)
    (hok : ∀ cart, Except.ok cart ∈ rs → cartInvariant cart) :
    ∀ c ∈ cartSnapshots user st rs, cartInvariant c := by
  induction rs generalizing st with
  | nil =>
      intro c hc
      simp only [cartSnapshots, List.mem_singleton] at hc
      exact hc ▸ hst
  | cons r rs ih =>
      intro c hc
      simp only [cartSnapshots, List.mem_cons] at hc
      rcases hc with rfl | hc
      · exact hst
      · cases r with
        | ok cart =>
            refine ih (CartService.loadCart user (.ok cart) st).1 ?_ ?_ c hc
            · simpa [CartService.loadCart] using hok cart (by simp)
            · intro cart' h; exact hok cart' (by simp [h])
        | error e =>
            refine ih (CartService.loadCart user (.error e) st).1 ?_ ?_ c hc
            · simpa [CartService.loadCart] using hst
            · intro cart' h; exact hok cart' (by simp [h])

/-- C2: every Cart snapshot published by the Cart State Cache — the initial
snapshot and every snapshot produced by a reload whose server response
satisfies the server-side derivation — has `item_count` equal to the sum of
the item quantities and `total_amount` equal to the sum of the item
subtotals. -/
theorem published_cart_snapshots_satisfy_invariant (user : Option User)
    (rs : List (Except HttpError Cart)) (c : Cart)
    (hok : ∀ cart, Except.ok cart ∈ rs → cartInvariant cart)
    (hc : c ∈ cartSnapshots user initialCart rs) : cartInvariant c :=
  cartSnapshots_inv user rs initialCart ⟨rfl, rfl⟩ hok c hc

theorem published_cart_snapshots_satisfy_invariant_witness :
    cartInvariant specCart :=
  published_cart_snapshots_satisfy_invariant none [Except.ok specCart] specCart
    (by
      intro cart hcart
      simp only [List.mem_singleton, Except.ok.injEq] at hcart
      subst hcart
      decide)
    (by decide)

/-- C9: a failed full-cart reload leaves the published snapshot unchanged —
`getCurrentCart` still returns the previous snapshot, no new snapshot is
emitted, no user-visible notification is shown, the failure is only logged,
and the reload is attempted exactly once (no retry). -/
theorem reload_failure_preserves_snapshot (user : Option User) (e : HttpError)
    (st : Cart) :
    CartService.getCurrentCart (CartService.loadCart user (.error e) st).1
      = CartService.getCurrentCart st ∧
    (CartService.loadCart user (.error e) st).2.countP isCacheSet = 0 ∧
    (CartService.loadCart user (.error e) st).2.countP isNotify = 0 ∧
    (CartService.loadCart user (.error e) st).2.countP isRequest = 1 ∧
    Event.logError "Error loading cart:" ∈ (CartService.loadCart user (.error e) st).2 := by
  simp [CartService.loadCart, CartService.getCurrentCart, isCacheSet, isNotify,
    isRequest, List.countP_cons, List.countP_nil]

/-- C3 as stated is false: the login operation of the Remote Store Client
attaches no identity headers at all (neither the current identity nor the
guest fallback). -/
theorem login_request_attaches_no_identity_headers :
    ¬ (ApiService.request none (.login "alice" "pw")).headers
        = some (ApiService.getHeaders none) := by
  simp [ApiService.request]

/-- Marks the operations that pass `getHeaders()`; the three authentication
operations (`login`, `register`, `getUsers`) do not. -/
def ApiOp.usesIdentity : ApiOp → Bool
  | .login _ _ => false
  | .register _ _ _ => false
  | .getUsers => false
  | _ => true

/-- C3 amended: every Remote Store Client operation except the
authentication operations (`login`, `register`, `getUsers`) attaches the
current Session Identity as the `X-User-ID` / `X-User-Role` headers, and
when no identity is set the attached headers are the default guest identity
(id `user1`, role `user`). -/
theorem non_auth_requests_attach_identity_headers (user : Option User)
    (op : ApiOp) (h : op.usesIdentity = true) :
    (ApiService.request user op).headers = some (ApiService.getHeaders user) ∧
    ApiService.getHeaders none
      = { contentType := "application/json", xUserId := "user1", xUserRole := "user" } := by
  constructor
  · cases op <;> simp_all [ApiOp.usesIdentity, ApiService.request]
  · rfl

theorem non_auth_requests_attach_identity_headers_witness :
    (ApiService.request none .getCart).headers = some (ApiService.getHeaders none) ∧
    ApiService.getHeaders none
      = { contentType := "application/json", xUserId := "user1", xUserRole := "user" } :=
  non_auth_requests_attach_identity_headers none .getCart rfl

/-- C8: the admin order-status command, as implemented, issues no HTTP
request at all (the `ApiService.updateOrderStatus` operation is never
dispatched) and unconditionally shows the success notification. -/
theorem admin_update_status_issues_no_request :
    (AdminOrdersComponent.updateOrderStatus order1 "shipped").countP isRequest = 0 ∧
    Event.notify "Order #1 status updated to shipped"
      ∈ AdminOrdersComponent.updateOrderStatus order1 "shipped" := by
  decide

/-- A concrete out-of-stock product. -/
def outOfStockProduct : Product :=
  { id := 1, name := "productA", description := "", price := 10, stock := 0,
    category := "cat", image_url := "" }

/-- A concrete in-stock product. -/
def inStockProduct : Product :=
  { id := 2, name := "productB", description := "", price := 5, stock := 3,
    category := "cat", image_url := "" }

/-- C5: adding a product with stock ≤ 0 issues no cart-add request and only
shows the out-of-stock notification; with stock > 0 the cart-add request is
issued. -/
theorem addToCart_stock_guard (user : Option User) (p : Product)
    (mutation : Except HttpError Unit) (reload : Except HttpError Cart)
    (st : Cart) :
    (p.stock ≤ 0 →
      ProductListComponent.addToCart user p mutation reload st
        = (st, [.notify "Product is out of stock"])) ∧
    (0 < p.stock →
      Event.request (ApiService.request user (.addToCart p.id 1))
        ∈ (ProductListComponent.addToCart user p mutation reload st).2) := by
  constructor
  · intro h
    simp [ProductListComponent.addToCart, h]
  · intro h
    have h' : ¬ p.stock ≤ 0 := not_le.mpr h
    cases mutation <;>
      simp [ProductListComponent.addToCart, h', CartService.addToCart]

theorem addToCart_stock_guard_witness :
    ProductListComponent.addToCart none outOfStockProduct (.ok ()) (.ok specCart) initialCart
      = (initialCart, [.notify "Product is out of stock"]) ∧
    Event.request (ApiService.request none (.addToCart inStockProduct.id 1))
      ∈ (ProductListComponent.addToCart none inStockProduct (.ok ()) (.ok specCart)
          initialCart).2 :=
  ⟨(addToCart_stock_guard none outOfStockProduct (.ok ()) (.ok specCart) initialCart).1
      (by decide),
   (addToCart_stock_guard none inStockProduct (.ok ()) (.ok specCart) initialCart).2
      (by decide)⟩

/-- C10: requesting an updated quantity above the item's `available_stock`
(with the data model's non-negative stock) issues no request at all, leaves
the cart snapshot unchanged, and shows only the stock-limit notification. -/
theorem updateQuantity_above_stock_no_request (user : Option User)
    (item : CartItem) (q : Int) (mutation : Except HttpError Unit)
    (reload : Except HttpError Cart) (st : Cart)
    (hstock : 0 ≤ item.available_stock) (hq : item.available_stock < q) :
    CartComponent.updateQuantity user item q mutation reload st
      = (st, [.notify ("Only " ++ toString item.available_stock ++ " items available")]) ∧
    (CartComponent.updateQuantity user item q mutation reload st).2.countP isRequest = 0 := by
  have h1 : ¬ q < 1 := by omega
  constructor
  · simp [CartComponent.updateQuantity, h1, hq]
  · simp [CartComponent.updateQuantity, h1, hq, isRequest, List.countP_cons]

theorem updateQuantity_above_stock_no_request_witness :
    CartComponent.updateQuantity none itemA 11 (.ok ()) (.ok specCart) specCart
      = (specCart, [.notify ("Only " ++ toString itemA.available_stock ++ " items available")]) ∧
    (CartComponent.updateQuantity none itemA 11 (.ok ()) (.ok specCart) specCart).2.countP
        isRequest = 0 :=
  updateQuantity_above_stock_no_request none itemA 11 (.ok ()) (.ok specCart) specCart
    (by decide) (by decide)

/-- C4: updating a cart item's quantity to a value below 1 is exactly the
remove operation — the component delegates to `removeItem`, the dispatched
request is the cart-remove request (never the cart-update one) — and for the
spec scenario (productA qty 2 @ $10, productB qty 1 @ $5) setting productA's
quantity to 0 yields a snapshot with `total_amount` 5 and `item_count` 1. -/
theorem updateQuantity_below_one_removes (user : Option User) (item : CartItem)
    (q : Int) (mutation : Except HttpError Unit) (reload : Except HttpError Cart)
    (st : Cart) (h : q < 1) :
    CartComponent.updateQuantity user item q mutation reload st
      = CartComponent.removeItem user item mutation reload st ∧
    Event.request (ApiService.request user (.removeFromCart item.product_id))
      ∈ (CartComponent.updateQuantity user item q mutation reload st).2 ∧
    (CartComponent.updateQuantity user itemA 0 (.ok ())
        (.ok (serverRemoveFromCart specCart itemA.product_id)) specCart).1.total_amount = 5 ∧
    (CartComponent.updateQuantity user itemA 0 (.ok ())
        (.ok (serverRemoveFromCart specCart itemA.product_id)) specCart).1.item_count = 1 := by
  refine ⟨by simp [CartComponent.updateQuantity, h], ?_, ?_, ?_⟩
  · cases mutation <;>
      simp [CartComponent.updateQuantity, h, CartComponent.removeItem,
        CartService.removeFromCart]
  · rfl
  · rfl

theorem updateQuantity_below_one_removes_witness :
    CartComponent.updateQuantity none itemA 0 (.ok ())
        (.ok (serverRemoveFromCart specCart itemA.product_id)) specCart
      = CartComponent.removeItem none itemA (.ok ())
          (.ok (serverRemoveFromCart specCart itemA.product_id)) specCart ∧
    Event.request (ApiService.request none (.removeFromCart itemA.product_id))
      ∈ (CartComponent.updateQuantity none itemA 0 (.ok ())
          (.ok (serverRemoveFromCart specCart itemA.product_id)) specCart).2 ∧
    (CartComponent.updateQuantity none itemA 0 (.ok ())
        (.ok (serverRemoveFromCart specCart itemA.product_id)) specCart).1.total_amount = 5 ∧
    (CartComponent.updateQuantity none itemA 0 (.ok ())
        (.ok (serverRemoveFromCart specCart itemA.product_id)) specCart).1.item_count = 1 :=
  updateQuantity_below_one_removes none itemA 0 (.ok ())
    (.ok (serverRemoveFromCart specCart itemA.product_id)) specCart (by decide)

/-- C6: a successful login with role `admin` stores the identity and
navigates to the admin surface; role `user` navigates to the user surface;
a failed login leaves Session State unchanged — nothing stored, no
navigation — and shows the failure notification. -/
theorem login_role_navigation (st : SessionState) (username password : String)
    (resp : Except HttpError User) :
    (∀ u, resp = .ok u → u.role = "admin" →
      (LoginComponent.onSubmit st true username password resp).1
          = { currentUser := some u, storedUser := some u } ∧
      Event.storeUser u ∈ (LoginComponent.onSubmit st true username password resp).2 ∧
      Event.navigate "/admin" ∈ (LoginComponent.onSubmit st true username password resp).2) ∧
    (∀ u, resp = .ok u → u.role = "user" →
      (LoginComponent.onSubmit st true username password resp).1
          = { currentUser := some u, storedUser := some u } ∧
      Event.navigate "/user" ∈ (LoginComponent.onSubmit st true username password resp).2) ∧
    (∀ e, resp = .error e →
      (LoginComponent.onSubmit st true username password resp).1 = st ∧
      (LoginComponent.onSubmit st true username password resp).2.countP isStoreUser = 0 ∧
      (LoginComponent.onSubmit st true username password resp).2.countP isNavigate = 0 ∧
      Event.notify "Login failed. Please check your credentials."
        ∈ (LoginComponent.onSubmit st true username password resp).2) := by
  refine ⟨?_, ?_, ?_⟩
  · rintro u rfl hrole
    simp [LoginComponent.onSubmit, AuthService.login, hrole]
  · rintro u rfl hrole
    simp [LoginComponent.onSubmit, AuthService.login, hrole]
  · rintro e rfl
    simp [LoginComponent.onSubmit, isStoreUser, isNavigate, List.countP_cons]

/-- A concrete admin identity. -/
def adminUser : User := { id := "9", username := "root", role := "admin", token := none }

/-- A concrete non-admin identity. -/
def plainUser : User := { id := "2", username := "bob", role := "user", token := none }

/-- The empty session (logged out). -/
def loggedOut : SessionState := { currentUser := none, storedUser := none }

theorem login_role_navigation_witness :
    ((LoginComponent.onSubmit loggedOut true "root" "pw" (.ok adminUser)).1
        = { currentUser := some adminUser, storedUser := some adminUser } ∧
      Event.storeUser adminUser
        ∈ (LoginComponent.onSubmit loggedOut true "root" "pw" (.ok adminUser)).2 ∧
      Event.navigate "/admin"
        ∈ (LoginComponent.onSubmit loggedOut true "root" "pw" (.ok adminUser)).2) ∧
    ((LoginComponent.onSubmit loggedOut true "bob" "pw" (.ok plainUser)).1
        = { currentUser := some plainUser, storedUser := some plainUser } ∧
      Event.navigate "/user"
        ∈ (LoginComponent.onSubmit loggedOut true "bob" "pw" (.ok plainUser)).2) ∧
    ((LoginComponent.onSubmit loggedOut true "eve" "pw" (.error stockErr)).1 = loggedOut ∧
      (LoginComponent.onSubmit loggedOut true "eve" "pw"
          (.error stockErr)).2.countP isStoreUser = 0 ∧
      (LoginComponent.onSubmit loggedOut true "eve" "pw"
          (.error stockErr)).2.countP isNavigate = 0 ∧
      Event.notify "Login failed. Please check your credentials."
        ∈ (LoginComponent.onSubmit loggedOut true "eve" "pw" (.error stockErr)).2) :=
  ⟨(login_role_navigation loggedOut "root" "pw" (.ok adminUser)).1 adminUser rfl rfl,
   (login_role_navigation loggedOut "bob" "pw" (.ok plainUser)).2.1 plainUser rfl rfl,
   (login_role_navigation loggedOut "eve" "pw" (.error stockErr)).2.2 stockErr rfl⟩

/-- C7 as stated is false: the cart-update command's failure notification is
the fixed string `Error updating cart` even when the response body carries a
server-provided message (`Insufficient stock` here). -/
theorem cart_update_ignores_server_message :
    Event.notify "Error updating cart"
      ∈ (CartComponent.updateQuantity none itemA 1 (.error stockErr) (.ok specCart)
          specCart).2 ∧
    Event.notify "Insufficient stock"
      ∉ (CartComponent.updateQuantity none itemA 1 (.error stockErr) (.ok specCart)
          specCart).2 := by
  decide

/-- C7 amended: only the checkout command surfaces the server-provided
message when one is present in the response body (falling back to its
generic failure string); every other command's failure notification is a
fixed generic string independent of the response body — cart update, item
removal, cart clearing, product add and login each show their own fixed
message. -/
theorem error_message_surfacing (user : Option User) (e : HttpError)
    (cart st : Cart) (item : CartItem) (q : Int) (p : Product)
    (reload : Except HttpError Cart) (sess : SessionState)
    (username password : String) :
    (∀ m, e.bodyError = some m → m ≠ "" → 0 < cart.items.length →
      Event.notify m ∈ CheckoutComponent.onSubmit user true cart (.error e)) ∧
    (e.bodyError = none → 0 < cart.items.length →
      Event.notify "Failed to place order. Please try again."
        ∈ CheckoutComponent.onSubmit user true cart (.error e)) ∧
    (1 ≤ q → q ≤ item.available_stock →
      Event.notify "Error updating cart"
        ∈ (CartComponent.updateQuantity user item q (.error e) reload st).2) ∧
    (Event.notify "Error removing item"
      ∈ (CartComponent.removeItem user item (.error e) reload st).2) ∧
    (Event.notify "Error clearing cart"
      ∈ (CartComponent.clearCart user true (.error e) reload st).2) ∧
    (0 < p.stock →
      Event.notify "Error adding product to cart"
        ∈ (ProductListComponent.addToCart user p (.error e) reload st).2) ∧
    (Event.notify "Login failed. Please check your credentials."
      ∈ (LoginComponent.onSubmit sess true username password (.error e)).2) := by
  refine ⟨?_, ?_, ?_, ?_, ?_, ?_, ?_⟩
  · rintro m hm hne hlen
    simp [CheckoutComponent.onSubmit, CheckoutComponent.errorMessage, hm, hne, hlen]
  · rintro hm hlen
    simp [CheckoutComponent.onSubmit, CheckoutComponent.errorMessage, hm, hlen]
  · intro h1 h2
    have hlt : ¬ q < 1 := by omega
    have hgt : ¬ q > item.available_stock := by omega
    simp [CartComponent.updateQuantity, hlt, hgt, CartService.updateCartItem]
  · simp [CartComponent.removeItem, CartService.removeFromCart]
  · simp [CartComponent.clearCart, CartService.clearCart]
  · intro h
    have h' : ¬ p.stock ≤ 0 := not_le.mpr h
    simp [ProductListComponent.addToCart, h', CartService.addToCart]
  · simp [LoginComponent.onSubmit]

theorem error_message_surfacing_witness :
    Event.notify "Insufficient stock"
      ∈ CheckoutComponent.onSubmit none true specCart (.error stockErr) ∧
    Event.notify "Failed to place order. Please try again."
      ∈ CheckoutComponent.onSubmit none true specCart
          (.error { status := 500, bodyError := none }) ∧
    Event.notify "Error updating cart"
      ∈ (CartComponent.updateQuantity none itemA 1 (.error stockErr) (.ok specCart)
          specCart).2 ∧
    Event.notify "Error adding product to cart"
      ∈ (ProductListComponent.addToCart none inStockProduct (.error stockErr)
          (.ok specCart) specCart).2 :=
  ⟨(error_message_surfacing none stockErr specCart specCart itemA 1 inStockProduct
        (.ok specCart) loggedOut "u" "p").1 "Insufficient stock" rfl (by decide) (by decide),
   (error_message_surfacing none { status := 500, bodyError := none } specCart specCart
        itemA 1 inStockProduct (.ok specCart) loggedOut "u" "p").2.1 rfl (by decide),
   (error_message_surfacing none stockErr specCart specCart itemA 1 inStockProduct
        (.ok specCart) loggedOut "u" "p").2.2.1 (by decide) (by decide),
   (error_message_surfacing none stockErr specCart specCart itemA 1 inStockProduct
        (.ok specCart) loggedOut "u" "p").2.2.2.2.2.1 (by decide)⟩

/-- C1: for every cart mutation operation of the Cart State Cache, a
successful HTTP mutation is followed by exactly one full cart reload
(`GET /cart`), and the operation's observers resolve (`next`, `complete`)
only after that single reload; a failed mutation performs no reload and no
cache emission. -/
theorem mutation_single_reload_before_resolve (user : Option User) (op : MutOp)
    (mutation : Except HttpError Unit) (reload : Except HttpError Cart)
    (st : Cart) :
    (∀ u, mutation = .ok u →
      ∃ pre, (CartService.mutate user op mutation reload st).2
          = pre ++ [Event.observerNext, Event.observerComplete] ∧
        pre.countP (isCartReloadRequest user) = 1 ∧
        pre.countP isObserverResolve = 0) ∧
    (∀ e, mutation = .error e →
      (CartService.mutate user op mutation reload st).2.countP
          (isCartReloadRequest user) = 0 ∧
      (CartService.mutate user op mutation reload st).2.countP isCacheSet = 0) := by
  constructor
  · rintro u rfl
    cases op with
    | add p q =>
        cases reload with
        | ok c =>
            exact ⟨[.request (ApiService.request user (.addToCart p q)),
                    .request (ApiService.request user .getCart), .cacheSet c], rfl,
              by simp [isCartReloadRequest, ApiService.request, List.countP_cons,
                List.countP_nil],
              by simp [isObserverResolve, List.countP_cons, List.countP_nil]⟩
        | error e =>
            exact ⟨[.request (ApiService.request user (.addToCart p q)),
                    .request (ApiService.request user .getCart),
                    .logError "Error loading cart:"], rfl,
              by simp [isCartReloadRequest, ApiService.request, List.countP_cons,
                List.countP_nil],
              by simp [isObserverResolve, List.countP_cons, List.countP_nil]⟩
    | update p q =>
        cases reload with
        | ok c =>
            exact ⟨[.request (ApiService.request user (.updateCartItem p q)),
                    .request (ApiService.request user .getCart), .cacheSet c], rfl,
              by simp [isCartReloadRequest, ApiService.request, List.countP_cons,
                List.countP_nil],
              by simp [isObserverResolve, List.countP_cons, List.countP_nil]⟩
        | error e =>
            exact ⟨[.request (ApiService.request user (.updateCartItem p q)),
                    .request (ApiService.request user .getCart),
                    .logError "Error loading cart:"], rfl,
              by simp [isCartReloadRequest, ApiService.request, List.countP_cons,
                List.countP_nil],
              by simp [isObserverResolve, List.countP_cons, List.countP_nil]⟩
    | remove p =>
        cases reload with
        | ok c =>
            exact ⟨[.request (ApiService.request user (.removeFromCart p)),
                    .request (ApiService.request user .getCart), .cacheSet c], rfl,
              by simp [isCartReloadRequest, ApiService.request, List.countP_cons,
                List.countP_nil],
              by simp [isObserverResolve, List.countP_cons, List.countP_nil]⟩
        | error e =>
            exact ⟨[.request (ApiService.request user (.removeFromCart p)),
                    .request (ApiService.request user .getCart),
                    .logError "Error loading cart:"], rfl,
              by simp [isCartReloadRequest, ApiService.request, List.countP_cons,
                List.countP_nil],
              by simp [isObserverResolve, List.countP_cons, List.countP_nil]⟩
    | clear =>
        cases reload with
        | ok c =>
            exact ⟨[.request (ApiService.request user .clearCart),
                    .request (ApiService.request user .getCart), .cacheSet c], rfl,
              by simp [isCartReloadRequest, ApiService.request, List.countP_cons,
                List.countP_nil],
              by simp [isObserverResolve, List.countP_cons, List.countP_nil]⟩
        | error e =>
            exact ⟨[.request (ApiService.request user .clearCart),
                    .request (ApiService.request user .getCart),
                    .logError "Error loading cart:"], rfl,
              by simp [isCartReloadRequest, ApiService.request, List.countP_cons,
                List.countP_nil],
              by simp [isObserverResolve, List.countP_cons, List.countP_nil]⟩
  · rintro e rfl
    cases op <;>
      constructor <;>
        simp [CartService.mutate, CartService.addToCart, CartService.updateCartItem,
          CartService.removeFromCart, CartService.clearCart, isCartReloadRequest,
          isCacheSet, ApiService.request, List.countP_cons, List.countP_nil]

theorem mutation_single_reload_before_resolve_witness :
    (∃ pre, (CartService.mutate none .clear (.ok ()) (.ok specCart) initialCart).2
        = pre ++ [Event.observerNext, Event.observerComplete] ∧
      pre.countP (isCartReloadRequest none) = 1 ∧
      pre.countP isObserverResolve = 0) ∧
    (CartService.mutate none (.add 1 1) (.error stockErr) (.ok specCart)
        initialCart).2.countP (isCartReloadRequest none) = 0 ∧
    (CartService.mutate none (.add 1 1) (.error stockErr) (.ok specCart)
        initialCart).2.countP isCacheSet = 0 :=
  ⟨(mutation_single_reload_before_resolve none .clear (.ok ()) (.ok specCart)
      initialCart).1 () rfl,
   (mutation_single_reload_before_resolve none (.add 1 1) (.error stockErr) (.ok specCart)
      initialCart).2 stockErr rfl⟩
